import Mathlib

set_option linter.unusedVariables false

/- Shallow embedding of `node/node.go` from idena-go: the node wiring layer.
External collaborators (blockchain, consensus engine, pools, ipfs, rpc) are
modelled as records carrying a unique allocation id together with their
constructor arguments, so value equality coincides with instance identity
(each constructor is invoked exactly once in `NewNode`). External effects and
fallible calls are driven by an explicit environment `Env`, and the observable
actions of `NewNode`, `Start`, `startRPC`, `startHTTP` and `stopHTTP` are
recorded as a trace of `Event`s in source order. -/

structure GoError where
  message : String
deriving DecidableEq, Inhabited

/- `blockchain.Head` header: the fields of it the wiring layer reads. -/
structure Header where
  height : Nat
  hash : Nat
deriving DecidableEq, Inhabited

/- Outcomes of the external calls made by the wiring layer. `getBlock`
models `blockchain.GetBlock` after a successful `InitializeChain` whose
resulting head is `head`. -/
structure Env where
  openDatabaseErr : Option GoError
  keyStoreDirErr : Option GoError
  keyStoreDir : String
  ipfsErr : Option GoError
  chainInitErr : Option GoError
  head : Header
  getBlock : Nat → Option Nat
  httpEndpointErr : Option GoError
  httpListenerNew : Nat
  httpHandlerNew : Nat

/- Configuration fields that `node.go` reads. External config values that the
wiring layer only passes through are opaque `Nat` tokens. -/
structure Config where
  dataDir : String
  p2p : Nat
  consensusConf : Nat
  rpcHTTPEndpoint : String
  rpcHTTPModules : List String
  rpcHTTPCors : List String
  rpcHTTPVirtualHosts : List String
  rpcHTTPTimeouts : Nat
  ipfsConf : Nat
  nodeKey : Nat
deriving DecidableEq, Inhabited

structure DB where
  id : Nat
  name : String
  dataDir : String
deriving DecidableEq, Inhabited

structure Bus where
  id : Nat
deriving DecidableEq, Inhabited

structure KeyStore where
  id : Nat
  dir : String
  scryptN : Nat
  scryptP : Nat
deriving DecidableEq, Inhabited

structure SecStore where
  id : Nat
deriving DecidableEq, Inhabited

structure IpfsProxy where
  id : Nat
  conf : Nat
deriving DecidableEq, Inhabited

structure AppState where
  id : Nat
  db : DB
  bus : Bus
deriving DecidableEq, Inhabited

structure Votes where
  id : Nat
  appState : AppState
deriving DecidableEq, Inhabited

structure TxPool where
  id : Nat
  appState : AppState
  bus : Bus
deriving DecidableEq, Inhabited

structure KeysPool where
  id : Nat
  appState : AppState
  bus : Bus
deriving DecidableEq, Inhabited

structure Blockchain where
  id : Nat
  config : Config
  db : DB
  txpool : TxPool
  appState : AppState
  ipfsProxy : IpfsProxy
  secStore : SecStore
  bus : Bus
deriving DecidableEq, Inhabited

structure Proposals where
  id : Nat
  chain : Blockchain
deriving DecidableEq, Inhabited

structure Flipper where
  id : Nat
  db : DB
  ipfsProxy : IpfsProxy
  flipKeyPool : KeysPool
  txpool : TxPool
  secStore : SecStore
  appState : AppState
deriving DecidableEq, Inhabited

structure ProtocolManager where
  id : Nat
  chain : Blockchain
  proposals : Proposals
  votes : Votes
  txpool : TxPool
  flipper : Flipper
  bus : Bus
  flipKeyPool : KeysPool
  p2pConf : Nat
deriving DecidableEq, Inhabited

structure Downloader where
  id : Nat
  pm : ProtocolManager
  chain : Blockchain
  ipfsProxy : IpfsProxy
  appState : AppState
deriving DecidableEq, Inhabited

structure Engine where
  id : Nat
  chain : Blockchain
  pm : ProtocolManager
  proposals : Proposals
  consensusConf : Nat
  appState : AppState
  votes : Votes
  txpool : TxPool
  secStore : SecStore
  downloader : Downloader
deriving DecidableEq, Inhabited

structure ValidationCeremony where
  id : Nat
  appState : AppState
  bus : Bus
  flipper : Flipper
  pm : ProtocolManager
  secStore : SecStore
  db : DB
  txpool : TxPool
  chain : Blockchain
  downloader : Downloader
deriving DecidableEq, Inhabited

/- `p2p.Server` as assembled at the top of `Node.Start`. -/
structure P2PServer where
  p2pConf : Nat
  privateKey : Nat
deriving DecidableEq, Inhabited

structure BaseApi where
  engine : Engine
  txpool : TxPool
  keyStore : KeyStore
  secStore : SecStore
deriving DecidableEq, Inhabited

/- The service objects built in `Node.apis`, each recording its
constructor arguments. -/
inductive ApiService where
  | netApi (pm : ProtocolManager) (srv : Option P2PServer) (ipfs : IpfsProxy)
  | dnaApi (base : BaseApi) (chain : Blockchain)
  | accountApi (base : BaseApi)
  | flipApi (base : BaseApi) (fp : Flipper) (pm : ProtocolManager)
      (ipfs : IpfsProxy) (cer : ValidationCeremony)
  | blockchainApi (base : BaseApi) (chain : Blockchain) (ipfs : IpfsProxy)
      (txpool : TxPool) (down : Downloader) (pm : ProtocolManager)
deriving DecidableEq, Inhabited

/- `rpc.API`: field names follow the Go struct, capitalised as in Go. -/
structure API where
  Namespace : String
  Version : String
  Service : ApiService
  Public : Bool
deriving DecidableEq, Inhabited

/- The `Node` struct of `node.go`. Fields that the Go struct declares but
`NewNode` leaves at their zero value (`votes`, `srv`, `rpcAPIs`,
`httpListener`, `httpHandler`) are modelled as `Option`/empty-list fields.
The `stop` channel and the logger carry no data and are omitted. -/
structure Node where
  config : Config
  blockchain : Blockchain
  appState : AppState
  secStore : SecStore
  pm : ProtocolManager
  proposals : Proposals
  votes : Option Votes
  consensusEngine : Engine
  txpool : TxPool
  flipKeyPool : KeysPool
  rpcAPIs : List API
  httpListener : Option Nat
  httpHandler : Option Nat
  srv : Option P2PServer
  keyStore : KeyStore
  fp : Flipper
  ipfsProxy : IpfsProxy
  bus : Bus
  ceremony : ValidationCeremony
  downloader : Downloader
deriving DecidableEq, Inhabited

/- Observable actions of the wiring layer, in source order. -/
inductive Event where
  | openDatabaseCall (name : String) (dataDir : String)
  | secStoreAddKey
  | chainInitCall
  | logErrorChainInit (msg : String)
  | appStateInitFrom (height : Nat)
  | txpoolInitFrom (head : Header)
  | flipKeyPoolInitFrom (head : Header)
  | flipperInitCall
  | ceremonyInitFrom (b : Option Nat)
  | provideApplyNewEpochFunc
  | engineStart
  | srvStart
  | pmStart
  | httpEndpointStart (endpoint : String)
  | logHTTPOpened (endpoint : String)
  | logErrorRPC (msg : String)
  | listenerClose
  | logHTTPClosed
  | handlerStop
deriving DecidableEq, Inhabited

def StandardScryptN : Nat := 262144

def StandardScryptP : Nat := 1

/- Constructors of the external components, mirroring the Go constructor
signatures with a fresh allocation id prepended. -/

def NewIpfsProxy (fresh : Nat) (conf : Nat) : IpfsProxy := ⟨fresh, conf⟩

def NewEventBus (fresh : Nat) : Bus := ⟨fresh⟩

def NewKeyStore (fresh : Nat) (dir : String) (scryptN scryptP : Nat) : KeyStore :=
  ⟨fresh, dir, scryptN, scryptP⟩

def NewSecStore (fresh : Nat) : SecStore := ⟨fresh⟩

def NewAppState (fresh : Nat) (db : DB) (bus : Bus) : AppState := ⟨fresh, db, bus⟩

def NewVotes (fresh : Nat) (appState : AppState) : Votes := ⟨fresh, appState⟩

def NewTxPool (fresh : Nat) (appState : AppState) (bus : Bus) : TxPool :=
  ⟨fresh, appState, bus⟩

def NewKeysPool (fresh : Nat) (appState : AppState) (bus : Bus) : KeysPool :=
  ⟨fresh, appState, bus⟩

def NewBlockchain (fresh : Nat) (config : Config) (db : DB) (txpool : TxPool)
    (appState : AppState) (ipfsProxy : IpfsProxy) (secStore : SecStore)
    (bus : Bus) : Blockchain :=
  ⟨fresh, config, db, txpool, appState, ipfsProxy, secStore, bus⟩

def NewProposals (fresh : Nat) (chain : Blockchain) : Proposals := ⟨fresh, chain⟩

def NewFlipper (fresh : Nat) (db : DB) (ipfsProxy : IpfsProxy)
    (flipKeyPool : KeysPool) (txpool : TxPool) (secStore : SecStore)
    (appState : AppState) : Flipper :=
  ⟨fresh, db, ipfsProxy, flipKeyPool, txpool, secStore, appState⟩

def NetProtocolManager (fresh : Nat) (chain : Blockchain) (proposals : Proposals)
    (votes : Votes) (txpool : TxPool) (flipper : Flipper) (bus : Bus)
    (flipKeyPool : KeysPool) (p2pConf : Nat) : ProtocolManager :=
  ⟨fresh, chain, proposals, votes, txpool, flipper, bus, flipKeyPool, p2pConf⟩

def NewDownloader (fresh : Nat) (pm : ProtocolManager) (chain : Blockchain)
    (ipfsProxy : IpfsProxy) (appState : AppState) : Downloader :=
  ⟨fresh, pm, chain, ipfsProxy, appState⟩

def NewEngine (fresh : Nat) (chain : Blockchain) (pm : ProtocolManager)
    (proposals : Proposals) (consensusConf : Nat) (appState : AppState)
    (votes : Votes) (txpool : TxPool) (secStore : SecStore)
    (downloader : Downloader) : Engine :=
  ⟨fresh, chain, pm, proposals, consensusConf, appState, votes, txpool, secStore,
    downloader⟩

def NewValidationCeremony (fresh : Nat) (appState : AppState) (bus : Bus)
    (flipper : Flipper) (pm : ProtocolManager) (secStore : SecStore) (db : DB)
    (txpool : TxPool) (chain : Blockchain) (downloader : Downloader) :
    ValidationCeremony :=
  ⟨fresh, appState, bus, flipper, pm, secStore, db, txpool, chain, downloader⟩

/- `OpenDatabase` from `node.go`: opens a leveldb store named `name`
under `c.DataDir`; the cache/handle sizes only tune the external store. -/
def OpenDatabase (c : Config) (name : String) (cache : Nat) (handles : Nat)
    (env : Env) : Except GoError DB :=
  match env.openDatabaseErr with
  | some e => Except.error e
  | none => Except.ok ⟨0, name, c.dataDir⟩

/- `NewNode` from `node.go`: opens the database, resolves the keystore
directory, starts the ipfs proxy, then allocates every component in source
order and assembles the `Node` record. Returns the result together with the
trace of external open calls. -/
def NewNode (config : Config) (env : Env) : Except GoError Node × List Event :=
  let evs := [Event.openDatabaseCall "idenachain" config.dataDir]
  match OpenDatabase config "idenachain" 16 16 env with
  | Except.error e => (Except.error e, evs)
  | Except.ok db =>
    match env.keyStoreDirErr with
    | some e => (Except.error e, evs)
    | none =>
      match env.ipfsErr with
      | some e => (Except.error e, evs)
      | none =>
        let ipfsProxy := NewIpfsProxy 1 config.ipfsConf
        let bus := NewEventBus 2
        let keyStore := NewKeyStore 3 env.keyStoreDir StandardScryptN StandardScryptP
        let secStore := NewSecStore 4
        let appState := NewAppState 5 db bus
        let votes := NewVotes 6 appState
        let txpool := NewTxPool 7 appState bus
        let flipKeyPool := NewKeysPool 8 appState bus
        let chain := NewBlockchain 9 config db txpool appState ipfsProxy secStore bus
        let proposals := NewProposals 10 chain
        let flipper := NewFlipper 11 db ipfsProxy flipKeyPool txpool secStore appState
        let pm := NetProtocolManager 12 chain proposals votes txpool flipper bus flipKeyPool config.p2p
        let downloader := NewDownloader 13 pm chain ipfsProxy appState
        let consensusEngine := NewEngine 14 chain pm proposals config.consensusConf appState votes txpool secStore downloader
        let ceremony := NewValidationCeremony 15 appState bus flipper pm secStore db txpool chain downloader
        (Except.ok {
          config := config
          blockchain := chain
          appState := appState
          secStore := secStore
          pm := pm
          proposals := proposals
          votes := none
          consensusEngine := consensusEngine
          txpool := txpool
          flipKeyPool := flipKeyPool
          rpcAPIs := []
          httpListener := none
          httpHandler := none
          srv := none
          keyStore := keyStore
          fp := flipper
          ipfsProxy := ipfsProxy
          bus := bus
          ceremony := ceremony
          downloader := downloader }, evs)

/- `Node.apis` from `node.go`: the five RPC descriptors. -/
def Node.apis (node : Node) : List API :=
  let baseApi : BaseApi := ⟨node.consensusEngine, node.txpool, node.keyStore, node.secStore⟩
  [⟨"net", "1.0", ApiService.netApi node.pm node.srv node.ipfsProxy, true⟩,
   ⟨"dna", "1.0", ApiService.dnaApi baseApi node.blockchain, true⟩,
   ⟨"account", "1.0", ApiService.accountApi baseApi, true⟩,
   ⟨"flip", "1.0", ApiService.flipApi baseApi node.fp node.pm node.ipfsProxy node.ceremony, true⟩,
   ⟨"bcn", "1.0", ApiService.blockchainApi baseApi node.blockchain node.ipfsProxy node.txpool node.downloader node.pm, true⟩]

/- `Node.startHTTP`: short-circuits on an empty endpoint; otherwise calls
`rpc.StartHTTPEndpoint` (outcome given by `env`), and only on success logs
and records the listener and handler. -/
def Node.startHTTP (node : Node) (endpoint : String) (apis : List API)
    (modules : List String) (cors : List String) (vhosts : List String)
    (timeouts : Nat) (env : Env) : Except GoError Unit × Node × List Event :=
  if endpoint = "" then
    (Except.ok (), node, [])
  else
    match env.httpEndpointErr with
    | some e => (Except.error e, node, [Event.httpEndpointStart endpoint])
    | none =>
      (Except.ok (),
       { node with httpListener := some env.httpListenerNew,
                   httpHandler := some env.httpHandlerNew },
       [Event.httpEndpointStart endpoint, Event.logHTTPOpened endpoint])

/- `Node.startRPC`: gathers the apis, starts HTTP, and records the apis on
the node only when the HTTP start did not fail. -/
def Node.startRPC (node : Node) (env : Env) : Except GoError Unit × Node × List Event :=
  let apis := node.apis
  match node.startHTTP node.config.rpcHTTPEndpoint apis node.config.rpcHTTPModules
      node.config.rpcHTTPCors node.config.rpcHTTPVirtualHosts
      node.config.rpcHTTPTimeouts env with
  | (Except.error e, n2, evs) => (Except.error e, n2, evs)
  | (Except.ok _, n2, evs) => (Except.ok (), { n2 with rpcAPIs := apis }, evs)

/- `Node.Start`: assembles the p2p server, adds the node key to the secret
store, initializes the chain and, on success, initializes app state, the
pools, the flipper and the ceremony, installs the epoch-apply hook, starts
the engine, the p2p server and the protocol manager, then configures RPC.
On a chain-initialization error it logs and returns at once. -/
def Node.Start (node : Node) (env : Env) : Node × List Event :=
  let n1 := { node with srv := some ⟨node.config.p2p, node.config.nodeKey⟩ }
  match env.chainInitErr with
  | some e =>
    (n1, [Event.secStoreAddKey, Event.chainInitCall, Event.logErrorChainInit e.message])
  | none =>
    let initEvs : List Event :=
      [Event.secStoreAddKey, Event.chainInitCall,
       Event.appStateInitFrom env.head.height,
       Event.txpoolInitFrom env.head,
       Event.flipKeyPoolInitFrom env.head,
       Event.flipperInitCall,
       Event.ceremonyInitFrom (env.getBlock env.head.hash),
       Event.provideApplyNewEpochFunc,
       Event.engineStart, Event.srvStart, Event.pmStart]
    match n1.startRPC env with
    | (Except.error e, n2, evs) => (n2, initEvs ++ evs ++ [Event.logErrorRPC e.message])
    | (Except.ok _, n2, evs) => (n2, initEvs ++ evs)

/- `Node.stopHTTP`: closes and clears the listener, then stops and clears
the handler, each only when present. -/
def Node.stopHTTP (node : Node) : Node × List Event :=
  match node.httpListener, node.httpHandler with
  | some _, some _ =>
    ({ node with httpListener := none, httpHandler := none },
     [Event.listenerClose, Event.logHTTPClosed, Event.handlerStop])
  | some _, none =>
    ({ node with httpListener := none }, [Event.listenerClose, Event.logHTTPClosed])
  | none, some _ =>
    ({ node with httpHandler := none }, [Event.handlerStop])
  | none, none => (node, [])

/- `config.GetDefaultConfig` as invoked by `StartDefaultNode`; the default
values are opaque tokens of the external config package. -/
def GetDefaultConfig (path : String) : Config :=
  { dataDir := path
    p2p := 0
    consensusConf := 0
    rpcHTTPEndpoint := ""
    rpcHTTPModules := []
    rpcHTTPCors := []
    rpcHTTPVirtualHosts := []
    rpcHTTPTimeouts := 0
    ipfsConf := 0
    nodeKey := 0 }

/- `StartDefaultNode` from `node.go`: builds the default config, calls
`NewNode`, returns the error message on failure, otherwise runs `Start`
(whose outcome it ignores) and returns "done". -/
def StartDefaultNode (path : String) (env : Env) : String :=
  let c := GetDefaultConfig path
  match (NewNode c env).1 with
  | Except.error e => e.message
  | Except.ok n =>
    let _ := n.Start env
    "done"

/- Trace scanner: `true` iff no `engineStart` occurs before the first
`provideApplyNewEpochFunc` (in particular `true` when `engineStart` never
occurs at all). -/
def hookInstalledBeforeEngineStart : List Event → Bool
  | [] => true
  | Event.provideApplyNewEpochFunc :: _ => true
  | Event.engineStart :: _ => false
  | _ :: rest => hookInstalledBeforeEngineStart rest

/- Events that initialize a component or start a subsystem. -/
def isComponentInitOrStart : Event → Bool
  | Event.appStateInitFrom _ => true
  | Event.txpoolInitFrom _ => true
  | Event.flipKeyPoolInitFrom _ => true
  | Event.flipperInitCall => true
  | Event.ceremonyInitFrom _ => true
  | Event.engineStart => true
  | Event.srvStart => true
  | Event.pmStart => true
  | Event.httpEndpointStart _ => true
  | _ => false

/- Events belonging to the RPC-configuration stage of `Start`. -/
def isRpcPhase : Event → Bool
  | Event.httpEndpointStart _ => true
  | Event.logHTTPOpened _ => true
  | Event.logErrorRPC _ => true
  | _ => false

def isOpenDatabaseCall : Event → Bool
  | Event.openDatabaseCall _ _ => true
  | _ => false

lemma startRPC_events_rpcPhase (n : Node) (env : Env) :
    ((n.startRPC env).2.2).all isRpcPhase = true := by
  unfold Node.startRPC Node.startHTTP
  by_cases he : n.config.rpcHTTPEndpoint = ""
  · simp [he]
  · cases h2 : env.httpEndpointErr with
    | some e => simp [he, h2, isRpcPhase]
    | none => simp [he, h2, isRpcPhase]

/-- C1: during `Node.Start`, the ceremony's `ApplyNewEpoch` hook is installed
on the blockchain (`ProvideApplyNewEpochFunc`) strictly before the consensus
engine is started; in every execution of `Start`, no `engineStart` action ever
precedes the hook installation, so the engine is never running while the hook
is uninstalled. -/
theorem node_start_hook_before_engine (node : Node) (env : Env) :
    hookInstalledBeforeEngineStart (node.Start env).2 = true := by
  unfold Node.Start
  cases h : env.chainInitErr with
  | some e => simp [hookInstalledBeforeEngineStart]
  | none =>
    simp only
    split
    · simp [hookInstalledBeforeEngineStart]
    · simp [hookInstalledBeforeEngineStart]

/-- C2: if `InitializeChain` fails during `Node.Start`, `Start` logs the error
and returns immediately: the trace is exactly the key registration, the failed
chain-initialization call and the error log; no component-initialization or
subsystem-start action occurs (app state, pools, flipper, ceremony stay
uninitialized; engine, p2p server, protocol manager and RPC are never
started), and the node is unchanged apart from the p2p server assembly that
precedes the failing call. -/
theorem node_start_chain_init_error_aborts (node : Node) (env : Env) (e : GoError)
    (h : env.chainInitErr = some e) :
    (node.Start env).2 =
      [Event.secStoreAddKey, Event.chainInitCall, Event.logErrorChainInit e.message]
    ∧ ((node.Start env).2).all (fun ev => !(isComponentInitOrStart ev)) = true
    ∧ (node.Start env).1 =
      { node with srv := some ⟨node.config.p2p, node.config.nodeKey⟩ } := by
  unfold Node.Start
  rw [h]
  exact ⟨rfl, by simp [isComponentInitOrStart], rfl⟩

/-- C3: on every successful `Node.Start` (chain initialization succeeds), the
trace begins with exactly: key registration, chain initialization, app-state
initialization from the head's height, transaction-pool and flip-key-pool
initialization from that same head, flipper initialization, ceremony
initialization from the block fetched at the head's hash, hook installation,
then engine, p2p server and protocol-manager start; everything after this
prelude belongs to the RPC-configuration stage, so all initializations happen
before the engine, p2p server, protocol manager and RPC are started. -/
theorem node_start_success_init_order (node : Node) (env : Env)
    (h : env.chainInitErr = none) :
    ∃ rest, (node.Start env).2 =
      [Event.secStoreAddKey, Event.chainInitCall,
       Event.appStateInitFrom env.head.height,
       Event.txpoolInitFrom env.head,
       Event.flipKeyPoolInitFrom env.head,
       Event.flipperInitCall,
       Event.ceremonyInitFrom (env.getBlock env.head.hash),
       Event.provideApplyNewEpochFunc,
       Event.engineStart, Event.srvStart, Event.pmStart] ++ rest
    ∧ rest.all isRpcPhase = true := by
  unfold Node.Start
  rw [h]
  simp only
  split
  case _ e n2 evs heq =>
    refine ⟨evs ++ [Event.logErrorRPC e.message], by simp, ?_⟩
    have h2 := startRPC_events_rpcPhase
      { node with srv := some ⟨node.config.p2p, node.config.nodeKey⟩ } env
    rw [heq] at h2
    simp only [List.all_append] at h2 ⊢
    simp [h2, isRpcPhase]
  case _ u n2 evs heq =>
    refine ⟨evs, rfl, ?_⟩
    have h2 := startRPC_events_rpcPhase
      { node with srv := some ⟨node.config.p2p, node.config.nodeKey⟩ } env
    rw [heq] at h2
    exact h2

/-- C4: `NewNode` wires the data flow of the overview: whenever construction
succeeds, the proposals pool and votes pool handed to the protocol manager
are the very instances held by the consensus engine, the downloader is built
over that protocol manager and that chain, and that same downloader instance
is held by both the consensus engine and the validation ceremony. -/
theorem newNode_pools_downloader_wiring (config : Config) (env : Env)
    (h1 : env.openDatabaseErr = none) (h2 : env.keyStoreDirErr = none)
    (h3 : env.ipfsErr = none) :
    ∃ node, (NewNode config env).1 = Except.ok node
      ∧ node.pm.proposals = node.proposals
      ∧ node.pm.votes = node.consensusEngine.votes
      ∧ node.consensusEngine.proposals = node.proposals
      ∧ node.downloader.pm = node.pm
      ∧ node.downloader.chain = node.blockchain
      ∧ node.consensusEngine.downloader = node.downloader
      ∧ node.ceremony.downloader = node.downloader := by
  unfold NewNode OpenDatabase
  rw [h1, h2, h3]
  exact ⟨_, rfl, rfl, rfl, rfl, rfl, rfl, rfl, rfl⟩

/-- C5: `Node.apis` returns exactly five RPC descriptors, with namespaces
"net", "dna", "account", "flip" and "bcn" in that order, each with version
"1.0" and `Public` set to `true`. -/
theorem node_apis_descriptors (node : Node) :
    (node.apis).map API.Namespace = ["net", "dna", "account", "flip", "bcn"]
    ∧ (node.apis).length = 5
    ∧ (node.apis).all (fun a => (a.Version == "1.0") && a.Public) = true := by
  refine ⟨rfl, rfl, ?_⟩
  simp [Node.apis]

/-- C6: `NewNode` performs exactly one database-open call, for a store named
"idenachain" in the configured data directory, and on success that single
handle is the one held by the app state, the blockchain, the flipper and the
validation ceremony, so all durable state shares one store. -/
theorem newNode_single_shared_db (config : Config) (env : Env)
    (h1 : env.openDatabaseErr = none) (h2 : env.keyStoreDirErr = none)
    (h3 : env.ipfsErr = none) :
    (NewNode config env).2 = [Event.openDatabaseCall "idenachain" config.dataDir]
    ∧ (((NewNode config env).2).filter isOpenDatabaseCall).length = 1
    ∧ ∃ node, (NewNode config env).1 = Except.ok node
        ∧ node.appState.db = node.blockchain.db
        ∧ node.blockchain.db = node.fp.db
        ∧ node.fp.db = node.ceremony.db
        ∧ node.appState.db.name = "idenachain"
        ∧ node.appState.db.dataDir = config.dataDir := by
  unfold NewNode OpenDatabase
  rw [h1, h2, h3]
  exact ⟨rfl, by simp [isOpenDatabaseCall], _, rfl, rfl, rfl, rfl, rfl, rfl⟩

/-- C7: every dependency the consensus engine holds is passed explicitly as
an argument to `NewEngine` in `NewNode`: on success the engine's chain,
protocol manager, proposal pool, vote pool, consensus configuration, app
state, transaction pool, secret store and downloader each equal the
corresponding component wired in `NewNode`; the engine receives no
dependency outside this explicit constructor argument list. -/
theorem newNode_engine_explicit_deps (config : Config) (env : Env)
    (h1 : env.openDatabaseErr = none) (h2 : env.keyStoreDirErr = none)
    (h3 : env.ipfsErr = none) :
    ∃ node, (NewNode config env).1 = Except.ok node
      ∧ node.consensusEngine = NewEngine 14 node.blockchain node.pm
          node.proposals config.consensusConf node.appState node.pm.votes
          node.txpool node.secStore node.downloader
      ∧ node.consensusEngine.chain = node.blockchain
      ∧ node.consensusEngine.pm = node.pm
      ∧ node.consensusEngine.proposals = node.proposals
      ∧ node.consensusEngine.consensusConf = config.consensusConf
      ∧ node.consensusEngine.appState = node.appState
      ∧ node.consensusEngine.votes = node.pm.votes
      ∧ node.consensusEngine.txpool = node.txpool
      ∧ node.consensusEngine.secStore = node.secStore
      ∧ node.consensusEngine.downloader = node.downloader := by
  unfold NewNode OpenDatabase
  rw [h1, h2, h3]
  exact ⟨_, rfl, rfl, rfl, rfl, rfl, rfl, rfl, rfl, rfl, rfl, rfl⟩

/-- C8: `Node.startHTTP` with an empty endpoint returns success without
attempting to start an HTTP endpoint (empty trace) and leaves the node —
in particular `httpListener` and `httpHandler` — unchanged; when
`StartHTTPEndpoint` fails the node is likewise unchanged, and the listener
and handler fields are assigned exactly when `StartHTTPEndpoint` succeeds
on a non-empty endpoint. -/
theorem node_startHTTP_empty_and_error_cases (node : Node) (apis : List API)
    (modules cors vhosts : List String) (timeouts : Nat) (env : Env) :
    node.startHTTP "" apis modules cors vhosts timeouts env =
      (Except.ok (), node, [])
    ∧ (∀ endpoint e, env.httpEndpointErr = some e →
        (node.startHTTP endpoint apis modules cors vhosts timeouts env).2.1 = node)
    ∧ (∀ endpoint, endpoint ≠ "" → env.httpEndpointErr = none →
        (node.startHTTP endpoint apis modules cors vhosts timeouts env).1 = Except.ok ()
        ∧ (node.startHTTP endpoint apis modules cors vhosts timeouts env).2.1 =
          { node with httpListener := some env.httpListenerNew,
                      httpHandler := some env.httpHandlerNew }) := by
  refine ⟨rfl, ?_, ?_⟩
  · intro endpoint e he
    unfold Node.startHTTP
    by_cases hend : endpoint = ""
    · simp [hend]
    · simp [hend, he]
  · intro endpoint hend he
    unfold Node.startHTTP
    simp [hend, he]

lemma stopHTTP_fst (n : Node) :
    (n.stopHTTP).1 = { n with httpListener := none, httpHandler := none } := by
  cases n with
  | mk c bch as ss pm pr vo ce tx fk ra hl hh srv ks fp ip bus cer dl =>
    cases hl <;> cases hh <;> rfl

/-- C9: `Node.stopHTTP` modifies only the `httpListener` and `httpHandler`
fields, setting each to `none` and leaving every other field unchanged (its
node result is exactly the input with those two fields cleared); it is
idempotent, and when both fields are already `none` the call changes nothing
and performs no action. -/
theorem node_stopHTTP_frame_idempotent (node : Node) :
    (node.stopHTTP).1 = { node with httpListener := none, httpHandler := none }
    ∧ ((node.stopHTTP).1.stopHTTP).1 = (node.stopHTTP).1
    ∧ (node.httpListener = none → node.httpHandler = none →
        node.stopHTTP = (node, [])) := by
  refine ⟨stopHTTP_fst node, by rw [stopHTTP_fst, stopHTTP_fst], ?_⟩
  intro h1 h2
  cases node with
  | mk c bch as ss pm pr vo ce tx fk ra hl hh srv ks fp ip bus cer dl =>
    simp only at h1 h2
    rw [h1, h2] at *
    rfl

/-- C10: `StartDefaultNode` returns the failing error's message string
exactly when `NewNode` fails, and returns "done" whenever `NewNode`
succeeds — regardless of whether `Start`'s internal steps (chain
initialization, RPC startup) succeed, since `Start` reports no error to its
caller. -/
theorem startDefaultNode_result (path : String) (env : Env) :
    (∀ e, (NewNode (GetDefaultConfig path) env).1 = Except.error e →
        StartDefaultNode path env = e.message)
    ∧ (∀ n, (NewNode (GetDefaultConfig path) env).1 = Except.ok n →
        StartDefaultNode path env = "done") := by
  constructor
  · intro e h
    unfold StartDefaultNode
    dsimp only
    rw [h]
  · intro n h
    unfold StartDefaultNode
    dsimp only
    rw [h]

/- Concrete inputs used by the witnesses below. -/

def cfgW : Config := ⟨"/data", 1, 2, "localhost:9009", [], [], [], 0, 3, 4⟩

def envOkW : Env := ⟨none, none, "ks", none, none, ⟨5, 77⟩, fun h => some (h + 1), none, 10, 11⟩

def envChainFailW : Env :=
  ⟨none, none, "ks", none, some ⟨"boom"⟩, ⟨5, 77⟩, fun h => some (h + 1), none, 10, 11⟩

def envDbFailW : Env :=
  ⟨some ⟨"boom"⟩, none, "ks", none, none, ⟨5, 77⟩, fun h => some (h + 1), none, 10, 11⟩

def envHttpFailW : Env :=
  ⟨none, none, "ks", none, none, ⟨5, 77⟩, fun h => some (h + 1), some ⟨"boom"⟩, 10, 11⟩

def nodeOkW : Node :=
  match (NewNode (GetDefaultConfig "p") envChainFailW).1 with
  | Except.ok n => n
  | Except.error _ => default

theorem node_start_chain_init_error_aborts_witness :
    ((default : Node).Start envChainFailW).2 =
      [Event.secStoreAddKey, Event.chainInitCall,
       Event.logErrorChainInit (GoError.mk "boom").message]
    ∧ (((default : Node).Start envChainFailW).2).all
        (fun ev => !(isComponentInitOrStart ev)) = true
    ∧ ((default : Node).Start envChainFailW).1 =
      { (default : Node) with
        srv := some ⟨(default : Node).config.p2p, (default : Node).config.nodeKey⟩ } :=
  node_start_chain_init_error_aborts default envChainFailW (GoError.mk "boom") rfl

theorem node_start_success_init_order_witness :
    ∃ rest, ((default : Node).Start envOkW).2 =
      [Event.secStoreAddKey, Event.chainInitCall,
       Event.appStateInitFrom envOkW.head.height,
       Event.txpoolInitFrom envOkW.head,
       Event.flipKeyPoolInitFrom envOkW.head,
       Event.flipperInitCall,
       Event.ceremonyInitFrom (envOkW.getBlock envOkW.head.hash),
       Event.provideApplyNewEpochFunc,
       Event.engineStart, Event.srvStart, Event.pmStart] ++ rest
    ∧ rest.all isRpcPhase = true :=
  node_start_success_init_order default envOkW rfl

theorem newNode_pools_downloader_wiring_witness :
    ∃ node, (NewNode cfgW envOkW).1 = Except.ok node
      ∧ node.pm.proposals = node.proposals
      ∧ node.pm.votes = node.consensusEngine.votes
      ∧ node.consensusEngine.proposals = node.proposals
      ∧ node.downloader.pm = node.pm
      ∧ node.downloader.chain = node.blockchain
      ∧ node.consensusEngine.downloader = node.downloader
      ∧ node.ceremony.downloader = node.downloader :=
  newNode_pools_downloader_wiring cfgW envOkW rfl rfl rfl

theorem newNode_single_shared_db_witness :
    (NewNode cfgW envOkW).2 = [Event.openDatabaseCall "idenachain" cfgW.dataDir]
    ∧ (((NewNode cfgW envOkW).2).filter isOpenDatabaseCall).length = 1
    ∧ ∃ node, (NewNode cfgW envOkW).1 = Except.ok node
        ∧ node.appState.db = node.blockchain.db
        ∧ node.blockchain.db = node.fp.db
        ∧ node.fp.db = node.ceremony.db
        ∧ node.appState.db.name = "idenachain"
        ∧ node.appState.db.dataDir = cfgW.dataDir :=
  newNode_single_shared_db cfgW envOkW rfl rfl rfl

theorem newNode_engine_explicit_deps_witness :
    ∃ node, (NewNode cfgW envOkW).1 = Except.ok node
      ∧ node.consensusEngine = NewEngine 14 node.blockchain node.pm
          node.proposals cfgW.consensusConf node.appState node.pm.votes
          node.txpool node.secStore node.downloader
      ∧ node.consensusEngine.chain = node.blockchain
      ∧ node.consensusEngine.pm = node.pm
      ∧ node.consensusEngine.proposals = node.proposals
      ∧ node.consensusEngine.consensusConf = cfgW.consensusConf
      ∧ node.consensusEngine.appState = node.appState
      ∧ node.consensusEngine.votes = node.pm.votes
      ∧ node.consensusEngine.txpool = node.txpool
      ∧ node.consensusEngine.secStore = node.secStore
      ∧ node.consensusEngine.downloader = node.downloader :=
  newNode_engine_explicit_deps cfgW envOkW rfl rfl rfl

theorem node_startHTTP_empty_and_error_cases_witness :
    (default : Node).startHTTP "" [] [] [] [] 0 envOkW = (Except.ok (), default, [])
    ∧ ((default : Node).startHTTP "x" [] [] [] [] 0 envHttpFailW).2.1 = default
    ∧ ((default : Node).startHTTP "x" [] [] [] [] 0 envOkW).1 = Except.ok ()
    ∧ ((default : Node).startHTTP "x" [] [] [] [] 0 envOkW).2.1 =
      { (default : Node) with httpListener := some envOkW.httpListenerNew,
                              httpHandler := some envOkW.httpHandlerNew } :=
  ⟨(node_startHTTP_empty_and_error_cases default [] [] [] [] 0 envOkW).1,
   (node_startHTTP_empty_and_error_cases default [] [] [] [] 0 envHttpFailW).2.1
     "x" (GoError.mk "boom") rfl,
   ((node_startHTTP_empty_and_error_cases default [] [] [] [] 0 envOkW).2.2
     "x" (by decide) rfl).1,
   ((node_startHTTP_empty_and_error_cases default [] [] [] [] 0 envOkW).2.2
     "x" (by decide) rfl).2⟩

theorem node_stopHTTP_frame_idempotent_witness :
    ((default : Node).stopHTTP).1 =
      { (default : Node) with httpListener := none, httpHandler := none }
    ∧ (((default : Node).stopHTTP).1.stopHTTP).1 = ((default : Node).stopHTTP).1
    ∧ (default : Node).stopHTTP = (default, []) :=
  ⟨(node_stopHTTP_frame_idempotent default).1,
   (node_stopHTTP_frame_idempotent default).2.1,
   (node_stopHTTP_frame_idempotent default).2.2 rfl rfl⟩

theorem startDefaultNode_result_witness :
    StartDefaultNode "p" envDbFailW = "boom"
    ∧ StartDefaultNode "p" envChainFailW = "done" :=
  ⟨(startDefaultNode_result "p" envDbFailW).1 (GoError.mk "boom") rfl,
   (startDefaultNode_result "p" envChainFailW).2 nodeOkW rfl⟩
